import Mathlib

/-!
Shallow embedding of the tap-to-spawn core of `src/index.ts`:
the clonable-component registry, `cloneComponents`, and the
"Tap Place" component's state machine (onEnter and the
SCREEN_TOUCH_START handler).

Attribute values are modelled by an explicit `Value` type; the world
registry is a map from (attribute kind, entity id) to an optional value
together with an entity-id allocator (`world.createEntity()` hands out
`nextEid` and increments it).  Times are integer milliseconds
(`Date.now()` values and the `f64` field `lastInteractionTime` are exact
integers in every execution of interest).  `Math.random()` is an
explicit parameter `rnd`; scalar numbers (`f32` scales, coordinates) are
modelled by rationals.  JavaScript truthiness of an entity id
(`if (entityToSpawn)`) is `entityToSpawn ≠ 0`.
-/

/-- The attribute kinds appearing in the program: the eighteen entries of
`componentsForClone` plus `ecs.Disabled`, which the onEnter handler sets
but which is not in the clone registry. -/
inductive Kind where
  | Position
  | Quaternion
  | Scale
  | Shadow
  | BoxGeometry
  | Material
  | ScaleAnimation
  | PositionAnimation
  | RotateAnimation
  | CustomPropertyAnimation
  | CustomVec3Animation
  | FollowAnimation
  | LookAtAnimation
  | GltfModel
  | Collider
  | ParticleEmitter
  | Ui
  | Audio
  | Disabled
deriving DecidableEq, Repr

/-- A 3-component vector (world positions). -/
structure Vec3 where
  x : ℚ
  y : ℚ
  z : ℚ
deriving DecidableEq, Repr

/-- The record written by `ecs.ScaleAnimation.set` in the touch handler. -/
structure ScaleAnimationData where
  fromX : ℚ
  fromY : ℚ
  fromZ : ℚ
  toX : ℚ
  toY : ℚ
  toZ : ℚ
  duration : ℕ
  loop : Bool
  easeOut : Bool
  easingFunction : String
deriving DecidableEq, Repr

/-- Attribute values stored in the world.  `vec` holds position data,
`scaleAnim` holds scale-animation records, `tag` is the value of
property-less marker components such as `Disabled`, and `raw` stands for
the opaque payload of any other component kind (the cloner copies values
without inspecting them). -/
inductive Value where
  | vec (v : Vec3)
  | scaleAnim (a : ScaleAnimationData)
  | tag
  | raw (n : ℕ)
deriving DecidableEq, Repr

/-- The shared world registry: an entity-id allocator plus the attribute
table, one optional value per (kind, entity id). -/
structure World where
  nextEid : ℕ
  attrs : Kind → ℕ → Option Value

/-- `component.set(world, eid, value)`: write `v` at `(k, e)`, leaving
every other cell unchanged. -/
def setAttr (w : World) (k : Kind) (e : ℕ) (v : Value) : World :=
  { nextEid := w.nextEid
    attrs := fun k2 e2 => if k2 = k ∧ e2 = e then some v else w.attrs k2 e2 }

/-- The `componentsForClone` array of `src/index.ts`, in source order. -/
def componentsForClone : List Kind :=
  [Kind.Position, Kind.Quaternion, Kind.Scale, Kind.Shadow,
   Kind.BoxGeometry, Kind.Material, Kind.ScaleAnimation,
   Kind.PositionAnimation, Kind.RotateAnimation,
   Kind.CustomPropertyAnimation, Kind.CustomVec3Animation,
   Kind.FollowAnimation, Kind.LookAtAnimation, Kind.GltfModel,
   Kind.Collider, Kind.ParticleEmitter, Kind.Ui, Kind.Audio]

/-- One iteration of the `forEach` body of `cloneComponents`: if the
component is present on the source, copy its value onto the target
(`{ ...properties }` is a copy by value of the record). -/
def cloneStep (sourceEid targetEid : ℕ) (w : World) (component : Kind) : World :=
  match w.attrs component sourceEid with
  | some properties => setAttr w component targetEid properties
  | none => w

/-- `cloneComponents(sourceEid, targetEid, world)`: fold the `forEach`
body over the registry in source order. -/
def cloneComponents (sourceEid targetEid : ℕ) (w : World) : World :=
  componentsForClone.foldl (cloneStep sourceEid targetEid) w

/-- The "Tap Place" schema: `entityToSpawn : eid`, `minScale : f32`,
`maxScale : f32` (schema defaults 1.0 and 3.0). -/
structure TapPlaceSchema where
  entityToSpawn : ℕ
  minScale : ℚ
  maxScale : ℚ

/-- The "Tap Place" per-entity data: `lastInteractionTime : f64`. -/
structure TapPlaceData where
  lastInteractionTime : ℤ

/-- The data record of a freshly activated controller: an `ecs.f64` data
field with no declared default starts at 0. -/
def initialData : TapPlaceData :=
  { lastInteractionTime := 0 }

/-- A SCREEN_TOUCH_START event: its `Date.now()` timestamp, the value the
handler's single `Math.random()` call returns, and `e.data.worldPosition`. -/
structure TouchEvent where
  time : ℤ
  random : ℚ
  worldPosition : Vec3

/-- Everything one run of the touch handler produces: the world and the
controller data afterwards, whether `console.error` was called, the
entity created (if any), and whether the event passed the debounce check
(`accepted = false` exactly when the early `return` was taken). -/
structure HandlerResult where
  world : World
  data : TapPlaceData
  errorReported : Bool
  spawned : Option ℕ
  accepted : Bool

/-- `Math.random() * (maxScale - minScale) + minScale`. -/
def randomScaleOf (sch : TapPlaceSchema) (rnd : ℚ) : ℚ :=
  rnd * (sch.maxScale - sch.minScale) + sch.minScale

/-- The record the handler passes to `ecs.ScaleAnimation.set`. -/
def growAnim (s : ℚ) : ScaleAnimationData :=
  { fromX := 0, fromY := 0, fromZ := 0
    toX := s, toY := s, toZ := s
    duration := 400, loop := false, easeOut := true
    easingFunction := "Quadratic" }

/-- The spawn branch of the handler: `world.createEntity()`, then
`cloneComponents`, then the `Position` write at the tap's world position,
then the `ScaleAnimation` write.  Returns the final world and the new
entity's id. -/
def spawnEntity (sch : TapPlaceSchema) (w : World) (rnd : ℚ) (pos : Vec3) :
    World × ℕ :=
  let newEntity := w.nextEid
  let w1 : World := { nextEid := w.nextEid + 1, attrs := w.attrs }
  let w2 := cloneComponents sch.entityToSpawn newEntity w1
  let w3 := setAttr w2 Kind.Position newEntity (Value.vec pos)
  let w4 := setAttr w3 Kind.ScaleAnimation newEntity
    (Value.scaleAnim (growAnim (randomScaleOf sch rnd)))
  (w4, newEntity)

/-- The SCREEN_TOUCH_START handler.  `currentTime` is `Date.now()`.
If `currentTime - lastInteractionTime ≤ 500` the handler returns at once;
otherwise it stores `currentTime` into the data attribute and, depending
on the truthiness of `entityToSpawn`, either spawns a clone or calls
`console.error`. -/
def onTouchStart (sch : TapPlaceSchema) (d : TapPlaceData) (w : World)
    (currentTime : ℤ) (rnd : ℚ) (pos : Vec3) : HandlerResult :=
  if currentTime - d.lastInteractionTime ≤ 500 then
    { world := w, data := d, errorReported := false, spawned := none,
      accepted := false }
  else if sch.entityToSpawn ≠ 0 then
    { world := (spawnEntity sch w rnd pos).1
      data := { lastInteractionTime := currentTime }
      errorReported := false
      spawned := some (spawnEntity sch w rnd pos).2
      accepted := true }
  else
    { world := w
      data := { lastInteractionTime := currentTime }
      errorReported := true
      spawned := none
      accepted := true }

/-- The onEnter handler of the single "default" state: if `entityToSpawn`
is truthy, `ecs.Disabled.set(world, entityToSpawn)`. -/
def onEnter (sch : TapPlaceSchema) (w : World) : World :=
  if sch.entityToSpawn ≠ 0 then
    setAttr w Kind.Disabled sch.entityToSpawn Value.tag
  else w

/-- Run the handler over a sequence of touch events, collecting the
timestamps of the events at which an entity was created. -/
def spawnTimes (sch : TapPlaceSchema) :
    TapPlaceData → World → List TouchEvent → List ℤ
  | _, _, [] => []
  | d, w, e :: rest =>
    if (onTouchStart sch d w e.time e.random e.worldPosition).spawned.isSome then
      e.time ::
        spawnTimes sch (onTouchStart sch d w e.time e.random e.worldPosition).data
          (onTouchStart sch d w e.time e.random e.worldPosition).world rest
    else
      spawnTimes sch (onTouchStart sch d w e.time e.random e.worldPosition).data
        (onTouchStart sch d w e.time e.random e.worldPosition).world rest

/-! Concrete inputs used by witnesses and counterexamples. -/

/-- An empty world whose next fresh entity id is 10. -/
def w0 : World :=
  { nextEid := 10, attrs := fun _ _ => none }

/-- Fresh controller data (last interaction at time 0). -/
def d0 : TapPlaceData :=
  { lastInteractionTime := 0 }

/-- A sample tap position. -/
def p0 : Vec3 :=
  { x := 1, y := 2, z := 3 }

/-- A schema with a configured template (entity 5) and the default scale
bounds. -/
def sch0 : TapPlaceSchema :=
  { entityToSpawn := 5, minScale := 1, maxScale := 3 }

/-- A schema with no template configured (`entityToSpawn = 0`). -/
def schNo : TapPlaceSchema :=
  { entityToSpawn := 0, minScale := 1, maxScale := 3 }

/-- A schema with degenerate scale bounds `minScale = maxScale = 2`. -/
def schDeg : TapPlaceSchema :=
  { entityToSpawn := 5, minScale := 2, maxScale := 2 }

/-- A world whose template entity 5 carries a position of its own
(different from any tap position). -/
def wT : World :=
  { nextEid := 10
    attrs := fun k e =>
      if k = Kind.Position ∧ e = 5 then some (Value.vec { x := 9, y := 9, z := 9 })
      else none }

/-- A world whose template entity 5 carries a scale animation of its own. -/
def wA : World :=
  { nextEid := 10
    attrs := fun k e =>
      if k = Kind.ScaleAnimation ∧ e = 5 then some (Value.scaleAnim (growAnim 7))
      else none }

/-! Helper lemmas about the world registry and the cloner. -/

theorem setAttr_nextEid (w : World) (k : Kind) (e : ℕ) (v : Value) :
    (setAttr w k e v).nextEid = w.nextEid := rfl

theorem setAttr_get (w : World) (k : Kind) (e : ℕ) (v : Value)
    (k2 : Kind) (e2 : ℕ) :
    (setAttr w k e v).attrs k2 e2
      = if k2 = k ∧ e2 = e then some v else w.attrs k2 e2 := rfl

theorem setAttr_get_same (w : World) (k : Kind) (e : ℕ) (v : Value) :
    (setAttr w k e v).attrs k e = some v := by
  simp [setAttr]

theorem setAttr_get_ne_kind (w : World) (k : Kind) (e : ℕ) (v : Value)
    (k2 : Kind) (e2 : ℕ) (h : k2 ≠ k) :
    (setAttr w k e v).attrs k2 e2 = w.attrs k2 e2 := by
  simp [setAttr, h]

theorem setAttr_get_ne_eid (w : World) (k : Kind) (e : ℕ) (v : Value)
    (k2 : Kind) (e2 : ℕ) (h : e2 ≠ e) :
    (setAttr w k e v).attrs k2 e2 = w.attrs k2 e2 := by
  simp [setAttr, h]

theorem cloneStep_nextEid (s t : ℕ) (w : World) (c : Kind) :
    (cloneStep s t w c).nextEid = w.nextEid := by
  unfold cloneStep
  cases w.attrs c s <;> rfl

theorem cloneStep_attrs_ne_eid (s t : ℕ) (w : World) (c : Kind)
    (k : Kind) (e : ℕ) (he : e ≠ t) :
    (cloneStep s t w c).attrs k e = w.attrs k e := by
  unfold cloneStep
  cases w.attrs c s with
  | none => rfl
  | some v => exact setAttr_get_ne_eid _ _ _ _ _ _ he

theorem cloneStep_attrs_ne_kind (s t : ℕ) (w : World) (c : Kind)
    (k : Kind) (e : ℕ) (hk : k ≠ c) :
    (cloneStep s t w c).attrs k e = w.attrs k e := by
  unfold cloneStep
  cases w.attrs c s with
  | none => rfl
  | some v => exact setAttr_get_ne_kind _ _ _ _ _ _ hk

theorem cloneFold_nextEid (s t : ℕ) :
    ∀ (l : List Kind) (w : World),
      (l.foldl (cloneStep s t) w).nextEid = w.nextEid := by
  intro l
  induction l with
  | nil => intro w; rfl
  | cons c cs ih =>
    intro w
    rw [List.foldl_cons, ih, cloneStep_nextEid]

theorem cloneFold_attrs_ne_eid (s t : ℕ) (k : Kind) (e : ℕ) (he : e ≠ t) :
    ∀ (l : List Kind) (w : World),
      (l.foldl (cloneStep s t) w).attrs k e = w.attrs k e := by
  intro l
  induction l with
  | nil => intro w; rfl
  | cons c cs ih =>
    intro w
    rw [List.foldl_cons, ih, cloneStep_attrs_ne_eid _ _ _ _ _ _ he]

theorem cloneFold_attrs_notmem (s t : ℕ) (k : Kind) (e : ℕ) :
    ∀ (l : List Kind), k ∉ l → ∀ (w : World),
      (l.foldl (cloneStep s t) w).attrs k e = w.attrs k e := by
  intro l
  induction l with
  | nil => intro _ w; rfl
  | cons c cs ih =>
    intro hk w
    have hkc : k ≠ c := by rintro rfl; exact hk (List.mem_cons_self _ _)
    rw [List.foldl_cons, ih (fun hmem => hk (List.mem_cons_of_mem _ hmem)),
      cloneStep_attrs_ne_kind _ _ _ _ _ _ hkc]

theorem cloneFold_attrs_mem (s t : ℕ) (k : Kind) :
    ∀ (l : List Kind), l.Nodup → k ∈ l → ∀ (w : World),
      (l.foldl (cloneStep s t) w).attrs k t
        = if (w.attrs k s).isSome then w.attrs k s else w.attrs k t := by
  intro l
  induction l with
  | nil => intro _ hmem; exact absurd hmem (List.not_mem_nil k)
  | cons c cs ih =>
    intro hnd hmem w
    rw [List.nodup_cons] at hnd
    rw [List.foldl_cons]
    rcases List.mem_cons.mp hmem with rfl | hmem2
    · rw [cloneFold_attrs_notmem _ _ _ _ _ hnd.1]
      unfold cloneStep
      cases h : w.attrs k s with
      | none => simp
      | some v => simp [setAttr_get_same]
    · have hkc : k ≠ c := by rintro rfl; exact hnd.1 hmem2
      rw [ih hnd.2 hmem2, cloneStep_attrs_ne_kind _ _ _ _ _ _ hkc,
        cloneStep_attrs_ne_kind _ _ _ _ _ _ hkc]

/-! Helper lemmas about the touch handler. -/

theorem touch_rejected (sch : TapPlaceSchema) (d : TapPlaceData) (w : World)
    (t : ℤ) (rnd : ℚ) (pos : Vec3)
    (h : t - d.lastInteractionTime ≤ 500) :
    onTouchStart sch d w t rnd pos
      = { world := w, data := d, errorReported := false, spawned := none,
          accepted := false } := by
  unfold onTouchStart
  rw [if_pos h]

theorem touch_accept_spawn (sch : TapPlaceSchema) (d : TapPlaceData) (w : World)
    (t : ℤ) (rnd : ℚ) (pos : Vec3)
    (h : 500 < t - d.lastInteractionTime) (htpl : sch.entityToSpawn ≠ 0) :
    onTouchStart sch d w t rnd pos
      = { world := (spawnEntity sch w rnd pos).1
          data := { lastInteractionTime := t }
          errorReported := false
          spawned := some (spawnEntity sch w rnd pos).2
          accepted := true } := by
  unfold onTouchStart
  rw [if_neg (by omega), if_pos htpl]

theorem touch_accept_missing (sch : TapPlaceSchema) (d : TapPlaceData) (w : World)
    (t : ℤ) (rnd : ℚ) (pos : Vec3)
    (h : 500 < t - d.lastInteractionTime) (htpl : sch.entityToSpawn = 0) :
    onTouchStart sch d w t rnd pos
      = { world := w
          data := { lastInteractionTime := t }
          errorReported := true
          spawned := none
          accepted := true } := by
  unfold onTouchStart
  rw [if_neg (by omega), if_neg (by simp [htpl])]

theorem spawnEntity_snd (sch : TapPlaceSchema) (w : World) (rnd : ℚ) (pos : Vec3) :
    (spawnEntity sch w rnd pos).2 = w.nextEid := rfl

theorem spawnEntity_scaleAnim (sch : TapPlaceSchema) (w : World) (rnd : ℚ)
    (pos : Vec3) :
    (spawnEntity sch w rnd pos).1.attrs Kind.ScaleAnimation w.nextEid
      = some (Value.scaleAnim (growAnim (randomScaleOf sch rnd))) := by
  unfold spawnEntity
  exact setAttr_get_same _ _ _ _

theorem spawnEntity_position (sch : TapPlaceSchema) (w : World) (rnd : ℚ)
    (pos : Vec3) :
    (spawnEntity sch w rnd pos).1.attrs Kind.Position w.nextEid
      = some (Value.vec pos) := by
  unfold spawnEntity
  rw [setAttr_get_ne_kind _ _ _ _ _ _ (by simp)]
  exact setAttr_get_same _ _ _ _

theorem spawnEntity_disabled (sch : TapPlaceSchema) (w : World) (rnd : ℚ)
    (pos : Vec3) (e : ℕ) :
    (spawnEntity sch w rnd pos).1.attrs Kind.Disabled e
      = w.attrs Kind.Disabled e := by
  unfold spawnEntity
  rw [setAttr_get_ne_kind _ _ _ _ _ _ (by simp),
    setAttr_get_ne_kind _ _ _ _ _ _ (by simp)]
  unfold cloneComponents
  exact cloneFold_attrs_notmem _ _ _ _ _ (by decide) _

/-! Helper lemmas about spawn timestamps over event sequences. -/

theorem gap_chain_mono {a a2 : ℤ} {l : List ℤ} (hle : a2 ≤ a)
    (h : List.Chain (fun x y => 500 < y - x) a l) :
    List.Chain (fun x y => 500 < y - x) a2 l := by
  cases h with
  | nil => exact List.Chain.nil
  | cons hr hc => exact List.Chain.cons (by omega) hc

theorem spawnTimes_chain (sch : TapPlaceSchema) :
    ∀ (events : List TouchEvent) (d : TapPlaceData) (w : World),
      List.Chain (fun x y => 500 < y - x) d.lastInteractionTime
        (spawnTimes sch d w events) := by
  intro events
  induction events with
  | nil =>
    intro d w
    rw [spawnTimes]
    exact List.Chain.nil
  | cons e rest ih =>
    intro d w
    by_cases h : e.time - d.lastInteractionTime ≤ 500
    · rw [spawnTimes, touch_rejected sch d w e.time e.random e.worldPosition h]
      simpa using ih d w
    · by_cases htpl : sch.entityToSpawn = 0
      · rw [spawnTimes,
          touch_accept_missing sch d w e.time e.random e.worldPosition (by omega) htpl]
        simp only [Option.isSome_none, Bool.false_eq_true, if_false]
        exact gap_chain_mono (show d.lastInteractionTime ≤ e.time by omega)
          (ih { lastInteractionTime := e.time } w)
      · rw [spawnTimes,
          touch_accept_spawn sch d w e.time e.random e.worldPosition (by omega) htpl]
        simp only [Option.isSome_some, if_true]
        exact List.Chain.cons (by omega)
          (ih { lastInteractionTime := e.time } (spawnEntity sch w e.random e.worldPosition).1)

theorem gap_chain_all {l : List ℤ} :
    ∀ {a : ℤ}, List.Chain (fun x y => 500 < y - x) a l →
      ∀ x ∈ l, 500 < x - a := by
  induction l with
  | nil => intro a _ x hx; exact absurd hx (List.not_mem_nil x)
  | cons b bs ih =>
    intro a h x hx
    cases h with
    | cons hab hb =>
      rcases List.mem_cons.mp hx with rfl | hx2
      · exact hab
      · have := ih hb x hx2
        omega

theorem gap_chain_pairwise {l : List ℤ} :
    ∀ {a : ℤ}, List.Chain (fun x y => 500 < y - x) a l →
      List.Pairwise (fun x y => 500 < y - x) l := by
  induction l with
  | nil => intro a _; exact List.Pairwise.nil
  | cons b bs ih =>
    intro a h
    cases h with
    | cons hab hb =>
      exact List.Pairwise.cons (gap_chain_all hb) (ih hb)

/-! Claim theorems. -/

/-- Claim C1: a touch event arriving while `now - lastInteractionTime ≤ 500`
is ignored entirely (world, data, error flag and spawn outcome unchanged),
and in any sequence of touch events on one controlled entity, any two
timestamps at which entities were actually spawned are more than 500 ms
apart — in particular never less than 500 ms apart. -/
theorem debounce_ignores_and_separates :
    (∀ (sch : TapPlaceSchema) (d : TapPlaceData) (w : World) (t : ℤ)
        (rnd : ℚ) (pos : Vec3),
      t - d.lastInteractionTime ≤ 500 →
      onTouchStart sch d w t rnd pos
        = { world := w, data := d, errorReported := false, spawned := none,
            accepted := false })
    ∧ ∀ (sch : TapPlaceSchema) (d : TapPlaceData) (w : World)
        (events : List TouchEvent),
      List.Pairwise (fun x y => 500 < y - x) (spawnTimes sch d w events) :=
  ⟨fun sch d w t rnd pos h => touch_rejected sch d w t rnd pos h,
   fun sch d w events => gap_chain_pairwise (spawnTimes_chain sch events d w)⟩

theorem debounce_ignores_and_separates_witness :
    onTouchStart sch0 d0 w0 300 0 p0
      = { world := w0, data := d0, errorReported := false, spawned := none,
          accepted := false } :=
  debounce_ignores_and_separates.1 sch0 d0 w0 300 0 p0 (by decide)

/-- Claim C2: every accepted tap stores the current time into
`lastInteractionTime` (also on the error path), and with no template
configured an accepted tap reports the configuration error, leaves the
world untouched (zero new entities), spawns nothing, and a second tap
within 500 ms of it is rejected outright. -/
theorem accept_sets_cooldown_first :
    ∀ (sch : TapPlaceSchema) (d : TapPlaceData) (w : World) (t : ℤ)
      (rnd : ℚ) (pos : Vec3),
      500 < t - d.lastInteractionTime →
      ((onTouchStart sch d w t rnd pos).data.lastInteractionTime = t
       ∧ (onTouchStart sch d w t rnd pos).accepted = true)
      ∧ (sch.entityToSpawn = 0 →
          (onTouchStart sch d w t rnd pos).errorReported = true
          ∧ (onTouchStart sch d w t rnd pos).world = w
          ∧ (onTouchStart sch d w t rnd pos).spawned = none
          ∧ ∀ (t2 : ℤ) (rnd2 : ℚ) (pos2 : Vec3), t2 - t ≤ 500 →
              onTouchStart sch (onTouchStart sch d w t rnd pos).data
                  (onTouchStart sch d w t rnd pos).world t2 rnd2 pos2
                = { world := (onTouchStart sch d w t rnd pos).world
                    data := (onTouchStart sch d w t rnd pos).data
                    errorReported := false, spawned := none,
                    accepted := false }) := by
  intro sch d w t rnd pos h
  by_cases htpl : sch.entityToSpawn = 0
  · rw [touch_accept_missing sch d w t rnd pos h htpl]
    refine ⟨⟨rfl, rfl⟩, fun _ => ⟨rfl, rfl, rfl, ?_⟩⟩
    intro t2 rnd2 pos2 h2
    exact touch_rejected sch _ w t2 rnd2 pos2 h2
  · rw [touch_accept_spawn sch d w t rnd pos h htpl]
    exact ⟨⟨rfl, rfl⟩, fun hc => absurd hc htpl⟩

theorem accept_sets_cooldown_first_witness :
    (onTouchStart schNo d0 w0 1000 0 p0).data.lastInteractionTime = 1000
    ∧ (onTouchStart schNo d0 w0 1000 0 p0).errorReported = true
    ∧ (onTouchStart schNo d0 w0 1000 0 p0).world = w0
    ∧ onTouchStart schNo (onTouchStart schNo d0 w0 1000 0 p0).data
        (onTouchStart schNo d0 w0 1000 0 p0).world 1200 0 p0
      = { world := (onTouchStart schNo d0 w0 1000 0 p0).world
          data := (onTouchStart schNo d0 w0 1000 0 p0).data
          errorReported := false, spawned := none, accepted := false } := by
  have h := accept_sets_cooldown_first schNo d0 w0 1000 0 p0 (by decide)
  have h2 := h.2 rfl
  exact ⟨h.1.1, h2.1, h2.2.1, h2.2.2.2 1200 0 p0 (by decide)⟩

/-- Claim C3: `cloneComponents` copies, in registry order, each registry
kind present on the source onto the target (overwriting whatever the
target held for that kind), leaves target kinds absent from the source
unchanged, creates no entities (allocator untouched), and writes nothing
outside the target's attribute cells. -/
theorem cloneComponents_spec :
    ∀ (s t : ℕ) (w : World),
      (cloneComponents s t w).nextEid = w.nextEid
      ∧ (∀ (k : Kind) (e : ℕ), e ≠ t →
          (cloneComponents s t w).attrs k e = w.attrs k e)
      ∧ (∀ k ∈ componentsForClone,
          (cloneComponents s t w).attrs k t
            = if (w.attrs k s).isSome then w.attrs k s else w.attrs k t)
      ∧ (∀ (k : Kind), k ∉ componentsForClone →
          (cloneComponents s t w).attrs k t = w.attrs k t) := by
  intro s t w
  exact ⟨cloneFold_nextEid s t componentsForClone w,
    fun k e he => cloneFold_attrs_ne_eid s t k e he componentsForClone w,
    fun k hk => cloneFold_attrs_mem s t k componentsForClone (by decide) hk w,
    fun k hk => cloneFold_attrs_notmem s t k t componentsForClone hk w⟩

theorem cloneComponents_spec_witness :
    (cloneComponents 5 10 w0).nextEid = w0.nextEid
    ∧ (cloneComponents 5 10 w0).attrs Kind.Material 7
        = w0.attrs Kind.Material 7
    ∧ (cloneComponents 5 10 w0).attrs Kind.Material 10
        = (if (w0.attrs Kind.Material 5).isSome then w0.attrs Kind.Material 5
           else w0.attrs Kind.Material 10)
    ∧ (cloneComponents 5 10 w0).attrs Kind.Disabled 10
        = w0.attrs Kind.Disabled 10 := by
  have h := cloneComponents_spec 5 10 w0
  exact ⟨h.1, h.2.1 Kind.Material 7 (by decide), h.2.2.1 Kind.Material (by decide),
    h.2.2.2 Kind.Disabled (by decide)⟩

/-- Claim C4 counterexample: with `minScale = maxScale = 2` the claim's
precondition `minScale ≤ maxScale` holds and `random = 0 ∈ [0, 1)`, yet
the accepted spawn's animation target scale is 2, which does not lie in
the half-open interval `[minScale, maxScale) = [2, 2)`. -/
theorem scale_range_counterexample :
    schDeg.minScale ≤ schDeg.maxScale
    ∧ (0:ℚ) ≤ 0 ∧ (0:ℚ) < 1
    ∧ (onTouchStart schDeg d0 w0 1000 0 p0).world.attrs Kind.ScaleAnimation 10
        = some (Value.scaleAnim (growAnim (randomScaleOf schDeg 0)))
    ∧ (growAnim (randomScaleOf schDeg 0)).toX = randomScaleOf schDeg 0
    ∧ ¬(randomScaleOf schDeg 0 < schDeg.maxScale) := by
  refine ⟨le_refl _, le_refl _, by norm_num, ?_, rfl, ?_⟩
  · rw [touch_accept_spawn schDeg d0 w0 1000 0 p0 (by decide) (by decide)]
    exact spawnEntity_scaleAnim schDeg w0 0 p0
  · norm_num [randomScaleOf, schDeg]

/-- Claim C4 (amended): the spawn scale is
`random * (maxScale - minScale) + minScale`, which equals the spec's
`minScale + random * (maxScale - minScale)`; with `random ∈ [0, 1)` it
lies in `[minScale, maxScale)` whenever `minScale < maxScale`, while for
`minScale = maxScale` it equals `minScale` exactly (the half-open
interval being empty there); and the animation's target is this same
value on all three axes (isotropic scaling). -/
theorem scale_range_amended :
    ∀ (sch : TapPlaceSchema) (d : TapPlaceData) (w : World) (t : ℤ)
      (rnd : ℚ) (pos : Vec3),
      500 < t - d.lastInteractionTime → sch.entityToSpawn ≠ 0 →
      0 ≤ rnd → rnd < 1 →
      (onTouchStart sch d w t rnd pos).world.attrs Kind.ScaleAnimation w.nextEid
        = some (Value.scaleAnim (growAnim (randomScaleOf sch rnd)))
      ∧ randomScaleOf sch rnd
          = sch.minScale + rnd * (sch.maxScale - sch.minScale)
      ∧ (growAnim (randomScaleOf sch rnd)).toX = randomScaleOf sch rnd
      ∧ (growAnim (randomScaleOf sch rnd)).toY = randomScaleOf sch rnd
      ∧ (growAnim (randomScaleOf sch rnd)).toZ = randomScaleOf sch rnd
      ∧ (sch.minScale = sch.maxScale → randomScaleOf sch rnd = sch.minScale)
      ∧ (sch.minScale < sch.maxScale →
          sch.minScale ≤ randomScaleOf sch rnd
          ∧ randomScaleOf sch rnd < sch.maxScale) := by
  intro sch d w t rnd pos h htpl h0 h1
  rw [touch_accept_spawn sch d w t rnd pos h htpl]
  refine ⟨spawnEntity_scaleAnim sch w rnd pos, by unfold randomScaleOf; ring,
    rfl, rfl, rfl, ?_, ?_⟩
  · intro he
    have hz : sch.maxScale - sch.minScale = 0 := by rw [he]; ring
    unfold randomScaleOf
    rw [hz]
    ring
  · intro hlt
    constructor
    · unfold randomScaleOf
      nlinarith [mul_nonneg h0 (by linarith : (0:ℚ) ≤ sch.maxScale - sch.minScale)]
    · unfold randomScaleOf
      nlinarith [mul_pos (by linarith : (0:ℚ) < 1 - rnd)
        (by linarith : (0:ℚ) < sch.maxScale - sch.minScale)]

theorem scale_range_amended_witness :
    (onTouchStart sch0 d0 w0 1000 0 p0).world.attrs Kind.ScaleAnimation 10
      = some (Value.scaleAnim (growAnim (randomScaleOf sch0 0)))
    ∧ sch0.minScale ≤ randomScaleOf sch0 0
    ∧ randomScaleOf sch0 0 < sch0.maxScale := by
  have h := scale_range_amended sch0 d0 w0 1000 0 p0 (by decide) (by decide)
    (le_refl 0) (by norm_num)
  have hb := h.2.2.2.2.2.2 (by norm_num [sch0])
  exact ⟨h.1, hb.1, hb.2⟩

/-- Claim C5: for every accepted spawn with a configured template, the
spawned entity is the freshly created one (`w.nextEid`) and its position
attribute is the tap's world position, for every world — in particular
whatever position the template carries and the clone copied. -/
theorem spawn_position_override :
    ∀ (sch : TapPlaceSchema) (d : TapPlaceData) (w : World) (t : ℤ)
      (rnd : ℚ) (pos : Vec3),
      500 < t - d.lastInteractionTime → sch.entityToSpawn ≠ 0 →
      (onTouchStart sch d w t rnd pos).spawned = some w.nextEid
      ∧ (onTouchStart sch d w t rnd pos).world.attrs Kind.Position w.nextEid
          = some (Value.vec pos) := by
  intro sch d w t rnd pos h htpl
  rw [touch_accept_spawn sch d w t rnd pos h htpl]
  exact ⟨rfl, spawnEntity_position sch w rnd pos⟩

theorem spawn_position_override_witness :
    wT.attrs Kind.Position 5 = some (Value.vec { x := 9, y := 9, z := 9 })
    ∧ (onTouchStart sch0 d0 wT 1000 0 p0).spawned = some 10
    ∧ (onTouchStart sch0 d0 wT 1000 0 p0).world.attrs Kind.Position 10
        = some (Value.vec p0) := by
  have h := spawn_position_override sch0 d0 wT 1000 0 p0 (by decide) (by decide)
  exact ⟨by decide, h.1, h.2⟩

/-- Claim C6: for every accepted spawn with a configured template, the
spawned entity's scale-animation attribute is exactly the record
animating all three axes from 0 to the computed scale over 400 ms,
non-looping, with ease-out quadratic easing — for every world, so it
overwrites any scale animation the clone copied from the template. -/
theorem spawn_scale_animation :
    ∀ (sch : TapPlaceSchema) (d : TapPlaceData) (w : World) (t : ℤ)
      (rnd : ℚ) (pos : Vec3),
      500 < t - d.lastInteractionTime → sch.entityToSpawn ≠ 0 →
      (onTouchStart sch d w t rnd pos).world.attrs Kind.ScaleAnimation w.nextEid
        = some (Value.scaleAnim
            { fromX := 0, fromY := 0, fromZ := 0
              toX := randomScaleOf sch rnd
              toY := randomScaleOf sch rnd
              toZ := randomScaleOf sch rnd
              duration := 400, loop := false, easeOut := true
              easingFunction := "Quadratic" }) := by
  intro sch d w t rnd pos h htpl
  rw [touch_accept_spawn sch d w t rnd pos h htpl]
  exact spawnEntity_scaleAnim sch w rnd pos

theorem spawn_scale_animation_witness :
    wA.attrs Kind.ScaleAnimation 5 = some (Value.scaleAnim (growAnim 7))
    ∧ (onTouchStart sch0 d0 wA 1000 0 p0).world.attrs Kind.ScaleAnimation 10
        = some (Value.scaleAnim
            { fromX := 0, fromY := 0, fromZ := 0
              toX := randomScaleOf sch0 0
              toY := randomScaleOf sch0 0
              toZ := randomScaleOf sch0 0
              duration := 400, loop := false, easeOut := true
              easingFunction := "Quadratic" }) :=
  ⟨by decide, spawn_scale_animation sch0 d0 wA 1000 0 p0 (by decide) (by decide)⟩

/-- Claim C7: the persistent `lastInteractionTime` field starts at 0 (an
`ecs.f64` data field with no declared default), so the first touch on a
freshly activated controller is accepted for every `Date.now()` value
exceeding 500 — i.e. for every wall-clock instant after the first half
second of the 1970 epoch, hence at every real execution. -/
theorem first_tap_accepted :
    initialData.lastInteractionTime = 0
    ∧ ∀ (sch : TapPlaceSchema) (w : World) (t : ℤ) (rnd : ℚ) (pos : Vec3),
        500 < t →
        (onTouchStart sch initialData w t rnd pos).accepted = true
        ∧ (onTouchStart sch initialData w t rnd pos).data.lastInteractionTime
            = t := by
  refine ⟨rfl, ?_⟩
  intro sch w t rnd pos ht
  have h : 500 < t - initialData.lastInteractionTime := by
    simp only [initialData]
    omega
  by_cases htpl : sch.entityToSpawn = 0
  · rw [touch_accept_missing sch initialData w t rnd pos h htpl]
    exact ⟨rfl, rfl⟩
  · rw [touch_accept_spawn sch initialData w t rnd pos h htpl]
    exact ⟨rfl, rfl⟩

theorem first_tap_accepted_witness :
    (onTouchStart sch0 initialData w0 1000 0 p0).accepted = true
    ∧ (onTouchStart sch0 initialData w0 1000 0 p0).data.lastInteractionTime
        = 1000 :=
  first_tap_accepted.2 sch0 w0 1000 0 p0 (by decide)

/-- Claim C8: on activation, a configured template entity gets its
`Disabled` attribute set; with no template configured onEnter is a no-op;
and the touch handler never writes the `Disabled` kind of any entity in
any world, so no subsequent spawn re-enables the template. -/
theorem onEnter_disables_template :
    ∀ (sch : TapPlaceSchema) (w : World),
      (sch.entityToSpawn ≠ 0 →
        (onEnter sch w).attrs Kind.Disabled sch.entityToSpawn = some Value.tag)
      ∧ (sch.entityToSpawn = 0 → onEnter sch w = w)
      ∧ ∀ (d : TapPlaceData) (t : ℤ) (rnd : ℚ) (pos : Vec3) (e : ℕ),
          (onTouchStart sch d w t rnd pos).world.attrs Kind.Disabled e
            = w.attrs Kind.Disabled e := by
  intro sch w
  refine ⟨?_, ?_, ?_⟩
  · intro htpl
    unfold onEnter
    rw [if_pos htpl]
    exact setAttr_get_same _ _ _ _
  · intro htpl
    unfold onEnter
    rw [if_neg (by simp [htpl])]
  · intro d t rnd pos e
    by_cases h : t - d.lastInteractionTime ≤ 500
    · rw [touch_rejected sch d w t rnd pos h]
    · by_cases htpl : sch.entityToSpawn = 0
      · rw [touch_accept_missing sch d w t rnd pos (by omega) htpl]
      · rw [touch_accept_spawn sch d w t rnd pos (by omega) htpl]
        exact spawnEntity_disabled sch w rnd pos e

theorem onEnter_disables_template_witness :
    (onEnter sch0 w0).attrs Kind.Disabled 5 = some Value.tag
    ∧ onEnter schNo w0 = w0
    ∧ (onTouchStart sch0 d0 (onEnter sch0 w0) 1000 0 p0).world.attrs
        Kind.Disabled 5
      = (onEnter sch0 w0).attrs Kind.Disabled 5 := by
  have h1 := onEnter_disables_template sch0 w0
  have h2 := onEnter_disables_template schNo w0
  have h3 := onEnter_disables_template sch0 (onEnter sch0 w0)
  exact ⟨h1.1 (by decide), h2.2.1 rfl, h3.2.2 d0 1000 0 p0 5⟩

/-- Claim C9: the clonable kind registry is exactly this fixed, ordered,
closed list of eighteen kinds — position, orientation (quaternion),
scale, shadow flag, box geometry, material, the scale/position/rotate
animations, the custom-property and custom-vector animations, the
follow and look-at behaviors, model reference, collider, particle
emitter, UI and audio — and cloning never transfers any kind outside it:
every kind not in the registry is left untouched on every entity. -/
theorem registry_closed :
    componentsForClone
      = [Kind.Position, Kind.Quaternion, Kind.Scale, Kind.Shadow,
         Kind.BoxGeometry, Kind.Material, Kind.ScaleAnimation,
         Kind.PositionAnimation, Kind.RotateAnimation,
         Kind.CustomPropertyAnimation, Kind.CustomVec3Animation,
         Kind.FollowAnimation, Kind.LookAtAnimation, Kind.GltfModel,
         Kind.Collider, Kind.ParticleEmitter, Kind.Ui, Kind.Audio]
    ∧ componentsForClone.length = 18
    ∧ Kind.Disabled ∉ componentsForClone
    ∧ ∀ (k : Kind), k ∉ componentsForClone →
        ∀ (s t : ℕ) (w : World) (e : ℕ),
          (cloneComponents s t w).attrs k e = w.attrs k e := by
  refine ⟨rfl, rfl, by decide, ?_⟩
  intro k hk s t w e
  exact cloneFold_attrs_notmem s t k e componentsForClone hk w

theorem registry_closed_witness :
    (cloneComponents 5 10 wT).attrs Kind.Disabled 10
      = wT.attrs Kind.Disabled 10 :=
  registry_closed.2.2.2 Kind.Disabled (by decide) 5 10 wT 10

/-- Claim C10: because the template check is numeric truthiness on the
entity id, a configured `entityToSpawn` equal to id 0 behaves exactly
like an unset template: activation disables nothing, and every accepted
tap reports the configuration error and creates no entity instead of
cloning entity 0. -/
theorem falsy_template_like_unset :
    ∀ (sch : TapPlaceSchema), sch.entityToSpawn = 0 →
      (∀ (w : World), onEnter sch w = w)
      ∧ ∀ (d : TapPlaceData) (w : World) (t : ℤ) (rnd : ℚ) (pos : Vec3),
          500 < t - d.lastInteractionTime →
          (onTouchStart sch d w t rnd pos).world = w
          ∧ (onTouchStart sch d w t rnd pos).spawned = none
          ∧ (onTouchStart sch d w t rnd pos).errorReported = true
          ∧ (onTouchStart sch d w t rnd pos).data.lastInteractionTime = t := by
  intro sch htpl
  refine ⟨?_, ?_⟩
  · intro w
    unfold onEnter
    rw [if_neg (by simp [htpl])]
  · intro d w t rnd pos h
    rw [touch_accept_missing sch d w t rnd pos h htpl]
    exact ⟨rfl, rfl, rfl, rfl⟩

theorem falsy_template_like_unset_witness :
    onEnter schNo w0 = w0
    ∧ (onTouchStart schNo d0 w0 1000 0 p0).world = w0
    ∧ (onTouchStart schNo d0 w0 1000 0 p0).spawned = none
    ∧ (onTouchStart schNo d0 w0 1000 0 p0).errorReported = true := by
  have h := falsy_template_like_unset schNo rfl
  have h2 := h.2 d0 w0 1000 0 p0 (by decide)
  exact ⟨h.1 w0, h2.1, h2.2.1, h2.2.2.1⟩
